import Mathlib

/-!
Verification of the pricing/shipping/tax calculation engine of the
Inquiry-tool repository (src/calculator.py, src/ioss_fetcher.py,
src/shipping_fetcher.py, src/models.py, src/order_fetcher.py).

The Python code is shallowly embedded: machine floats are modelled by exact
rationals (ℚ), Python dicts keyed by strings by association lists, raised
exceptions by `Except String`, and `None` / absent dict keys by `Option`.
Mutation of dataclass instances is modelled by returning updated records.
-/

namespace InquiryTool

/-- Character-level model of Python `str.lower()` (the engine only compares
ASCII country/attribute names). -/
def lower (s : String) : String := ⟨s.data.map Char.toLower⟩

/-- Model of `str.replace('%', '')`: removes every `%` character
(single-character pattern, so replacement by the empty string is a filter). -/
def strip_percent (s : String) : String := ⟨s.data.filter (fun c => c ≠ '%')⟩

/-- Model of Python `str.strip()`: drop leading and trailing whitespace. -/
def strip_ws (s : String) : String :=
  ⟨((s.data.dropWhile Char.isWhitespace).reverse.dropWhile Char.isWhitespace).reverse⟩

/-- Numeric value of a list of decimal digit characters. -/
def digits_val (cs : List Char) : ℕ := cs.foldl (fun a c => a * 10 + (c.toNat - 48)) 0

/-- Model of Python's builtin `float()` applied to a string: an optional-sign
decimal literal `[+-]?ddd[.ddd]` with at least one digit (the forms the rate
and weight cells of the sheets use; exponent/inf/nan forms are not modelled).
Returns `none` where `float()` raises `ValueError`. -/
def python_float (s : String) : Option ℚ :=
  let parse_unsigned : List Char → Option ℚ := fun cs =>
    match cs.splitOn '.' with
    | [ip] =>
      if ip ≠ [] ∧ ip.all Char.isDigit then some ((digits_val ip : ℤ) : ℚ) else none
    | [ip, fp] =>
      if (ip ≠ [] ∨ fp ≠ []) ∧ ip.all Char.isDigit ∧ fp.all Char.isDigit then
        some (((digits_val ip : ℤ) : ℚ) + ((digits_val fp : ℤ) : ℚ) / 10 ^ fp.length)
      else none
    | _ => none
  match s.data with
  | '-' :: rest => (parse_unsigned rest).map (fun q => -q)
  | '+' :: rest => parse_unsigned rest
  | rest => parse_unsigned rest

/-- A raw worksheet cell as returned by `sheet.get_all_records()`: either a
string or an already-numeric value. -/
inductive CellValue where
  | str (s : String)
  | num (q : ℚ)
deriving DecidableEq

/-- `GoogleSheetsShippingSource.load_rules.safe_float`
(src/shipping_fetcher.py lines 102-108): `''` and `'-'` map to `0.0`, any
other unparsable value is caught and also maps to `0.0`. -/
def safe_float : CellValue → ℚ
  | .str s => if s = "" ∨ s = "-" then 0 else (python_float s).getD 0
  | .num q => q

/-- `round(x, n)` half-to-even, the Python rounding used at
src/calculator.py lines 106, 108 (`round(fee, 3)`) and 327
(`round(ioss_cost, 2)`), modelled exactly on ℚ. -/
def py_round_half_even (x : ℚ) (n : ℕ) : ℚ :=
  let scaled := x * 10 ^ n
  let f : ℤ := ⌊scaled⌋
  let r := scaled - (f : ℚ)
  let k : ℤ :=
    if r < 1/2 then f
    else if 1/2 < r then f + 1
    else if f % 2 = 0 then f else f + 1
  (k : ℚ) / 10 ^ n

/-- src/models.py `Product`. All floats become ℚ. The source field named
`attribute` is called `attr` here (`attribute` is a Lean keyword); the same
renaming applies in `ShippingRule` and `SelectedRule`. The `ioss_tax` field is
not declared in models.py but is assigned dynamically by
`Calculator.calculate_totals` (src/calculator.py line 255), which Python
dataclasses permit; it is included here so the assignment can be modelled. -/
structure Product where
  sku : String
  quantity : ℚ
  weight : ℚ
  attr : String
  length : ℚ
  width : ℚ
  height : ℚ
  price : ℚ
  ioss_price : ℚ
  image_url : String
  shipping_fee : ℚ
  total : ℚ
  actual_weight : ℚ
  volume_weight : ℚ
  ioss_tax : ℚ
deriving DecidableEq

/-- src/models.py `ShippingRule`. -/
structure ShippingRule where
  shipping_company : String
  attr : String
  country : String
  region : String
  weight_min : ℚ
  weight_max : ℚ
  first_weight : ℚ
  first_weight_fee : ℚ
  additional_weight : ℚ
  additional_weight_price : ℚ
  min_delivery_days : ℤ
  max_delivery_days : ℤ
  registration_fee : ℚ
deriving DecidableEq

/-- src/models.py `IossRule`. -/
structure IossRule where
  country : String
  vat_rate : ℚ
  service_rate : ℚ
deriving DecidableEq

/-- The dict-shaped "selected shipping rule" passed around by the calculator
(the dictionaries built by `find_applicable_shipping_rules`, src/calculator.py
lines 97-113).  `shipping_company` and `total_weight` are read with presence
checks (`'shipping_company' in ...`, `.get('total_weight')`), so possible key
absence is modelled with `Option`; the remaining keys are accessed with `[...]`
and are therefore required. -/
structure SelectedRule where
  id : ℕ
  shipping_company : Option String
  country : String
  attr : String
  region : String
  weight_min : ℚ
  weight_max : ℚ
  first_weight : ℚ
  first_weight_fee : ℚ
  additional_weight : ℚ
  additional_weight_price : ℚ
  min_delivery_days : ℤ
  max_delivery_days : ℤ
  registration_fee : ℚ
  total_weight : Option ℚ
deriving DecidableEq

/-- The `rule_info` dict returned by `calculate_shipping_fee`
(src/calculator.py lines 165-177). -/
structure RuleInfo where
  shipping_company : String
  region : String
  estimated_delivery_time : String
  min_delivery_days : ℤ
  max_delivery_days : ℤ
  first_weight : ℚ
  first_weight_fee : ℚ
  additional_weight : ℚ
  additional_weight_price : ℚ
  registration_fee : ℚ
  actual_weight : ℚ
deriving DecidableEq

/-- The `ioss_info` dict returned by `calculate_total_ioss_tax`
(src/calculator.py lines 207-214); the empty dict returned on the zero-tax
paths is modelled as `none` at the use sites. -/
structure IossInfo where
  vat_rate : ℚ
  service_rate : ℚ
  vat_tax : ℚ
  service_fee : ℚ
  total_ioss_tax : ℚ
  total_ioss_price : ℚ
deriving DecidableEq

/-- src/models.py `CalculationResult`. -/
structure CalculationResult where
  products : List Product
  total_amount : ℚ
  ioss_taxes : ℚ
deriving DecidableEq

/-- The order records consumed by `Calculator.calculate_order_totals` and
`create_invoices`.  Fields follow src/models.py `Order` plus
`uniform_cost_price`, which src/order_fetcher.py line 50 supplies and
src/calculator.py line 311 reads even though models.py omits it (the
calculator's duck-typed input contract requires it).  `quantity` is an int in
the source, embedded into ℚ. -/
structure Order where
  order_number : String
  order_status : String
  order_note : String
  payment_time : String
  country_code : String
  country : String
  product_name : String
  shop_name : String
  sku : String
  combination_sku : String
  quantity : ℚ
  total_weight : ℚ
  uniform_cost_price : ℚ
deriving DecidableEq

/-- src/models.py `Invoice`: exactly the declared fields — note there is no
`ioss_cost` field, although `Calculator.create_invoices` passes one
(src/calculator.py line 377). -/
structure Invoice where
  country : String
  order_number : String
  product_cost : ℚ
  shipping_cost : ℚ
  redelivery_cost : ℚ
  total_charges : ℚ
deriving DecidableEq

/-! ## IOSS rule loading (src/ioss_fetcher.py) -/

/-- Rate-cell parsing of `GoogleSheetsIossSource.load_rules`
(src/ioss_fetcher.py lines 79-86): `str(cell).replace('%', '').strip()`,
empty string maps to `0.0`, otherwise `float(...)` (failure means the row is
skipped).  Note: the numeric value is NOT divided by 100. -/
def parse_rate_cell (cell : String) : Option ℚ :=
  let s := strip_ws (strip_percent cell)
  if s = "" then some 0 else python_float s

/-- One row of the IOSS sheet turned into an `IossRule`
(src/ioss_fetcher.py lines 77-90); `none` when the row raises and is skipped. -/
def parse_ioss_row (country vat_cell service_cell : String) : Option IossRule :=
  match parse_rate_cell vat_cell, parse_rate_cell service_cell with
  | some v, some s => some { country := country, vat_rate := v, service_rate := s }
  | _, _ => none

/-- The row loop of `GoogleSheetsIossSource.load_rules`: bad rows are logged
and skipped. -/
def load_ioss_rules (rows : List (String × String × String)) : List IossRule :=
  rows.filterMap (fun row => parse_ioss_row row.1 row.2.1 row.2.2)

/-- `IossFetcher.get_ioss_rule` (src/ioss_fetcher.py lines 123-130): first
rule whose country matches case-insensitively, else `None`. -/
def get_ioss_rule (rules : List IossRule) (country : String) : Option IossRule :=
  rules.find? (fun r => lower r.country == lower country)

/-! ## Weight aggregation and rule matching (src/calculator.py lines 35-113) -/

/-- Python truthiness test `product.length and product.width and
product.height` (src/calculator.py line 55): all three nonzero. -/
def has_dims (p : Product) : Bool :=
  decide (p.length ≠ 0) && decide (p.width ≠ 0) && decide (p.height ≠ 0)

/-- Per-product chargeable weight of `find_applicable_shipping_rules`
(src/calculator.py lines 48-65): `max(actual, volume)` when all dimensions
are nonzero, else the actual weight `quantity * weight`. -/
def product_chargeable_weight (ratio : ℚ) (p : Product) : ℚ :=
  let actual := p.quantity * p.weight
  if has_dims p then max actual (p.length * p.width * p.height / ratio * p.quantity)
  else actual

/-- The accumulated `total_weight` of `find_applicable_shipping_rules`
(src/calculator.py line 67). -/
def shipment_weight (ratio : ℚ) (products : List Product) : ℚ :=
  (products.map (product_chargeable_weight ratio)).sum

/-- The attribute priority list 食品 > 纯电 > 特货 > 带电 > 普货
(src/calculator.py line 72). -/
def attribute_priority : List String := ["食品", "纯电", "特货", "带电", "普货"]

/-- The priority scan of src/calculator.py lines 75-80: highest-priority
attribute present among the products, defaulting to 普货. -/
def chosen_attr (products : List Product) : String :=
  (attribute_priority.find? (fun a => products.any (fun p => p.attr == a))).getD "普货"

/-- The filter predicate of src/calculator.py lines 85-90: case-insensitive
country and attribute match, and `weight_min < total_weight ≤ weight_max`. -/
def rule_matches (destination chosen : String) (tw : ℚ) (r : ShippingRule) : Bool :=
  lower r.country == lower destination && lower r.attr == lower chosen &&
    decide (r.weight_min < tw) && decide (tw ≤ r.weight_max)

/-- One returned rule dict of src/calculator.py lines 97-113: all rule fields
plus the enumeration index `id` and the computed `total_weight`; the two fee
fields go through `round(..., 3)`. -/
def mk_rule_entry (i : ℕ) (r : ShippingRule) (tw : ℚ) : SelectedRule :=
  { id := i
    shipping_company := some r.shipping_company
    country := r.country
    attr := r.attr
    region := r.region
    weight_min := r.weight_min
    weight_max := r.weight_max
    first_weight := r.first_weight
    first_weight_fee := py_round_half_even r.first_weight_fee 3
    additional_weight := r.additional_weight
    additional_weight_price := py_round_half_even r.additional_weight_price 3
    min_delivery_days := r.min_delivery_days
    max_delivery_days := r.max_delivery_days
    registration_fee := r.registration_fee
    total_weight := some tw }

/-- The `enumerate(applicable_rules)` comprehension of src/calculator.py
line 113. -/
def enum_entries (tw : ℚ) : ℕ → List ShippingRule → List SelectedRule
  | _, [] => []
  | i, r :: rest => mk_rule_entry i r tw :: enum_entries tw (i + 1) rest

/-- `Calculator.find_applicable_shipping_rules` (src/calculator.py
lines 35-113).  The rule table is passed explicitly (the source reads it
from the class-level cache).  With `ratio = 0` and a product whose three
dimensions are nonzero, the division `l*w*h / volume_weight_ratio` raises
`ZeroDivisionError`, modelled as `.error`. -/
def find_applicable_shipping_rules (rules : List ShippingRule)
    (products : List Product) (destination : String) (ratio : ℚ) :
    Except String (List SelectedRule) :=
  if ratio = 0 ∧ products.any has_dims then
    .error "ZeroDivisionError: float division by zero"
  else
    let tw := shipment_weight ratio products
    let chosen := chosen_attr products
    .ok (enum_entries tw 0 (rules.filter (rule_matches destination chosen tw)))

/-! ## Shipping fee (src/calculator.py lines 115-179) -/

/-- `Calculator.calculate_shipping_fee` (src/calculator.py lines 115-179).
The weight is taken from the rule dict's `total_weight` key when present,
else re-derived as the plain sum `Σ quantity * weight` (line 130 — without
any volumetric comparison).  Above the first weight, Python divides by
`additional_weight`; when that field is `0` the division raises
`ZeroDivisionError`, modelled as `.error`. -/
def calculate_shipping_fee (products : List Product) (r : SelectedRule) :
    Except String (ℚ × RuleInfo) :=
  let total_weight :=
    match r.total_weight with
    | some w => w
    | none => (products.map (fun p => p.quantity * p.weight)).sum
  let fee! : Except String ℚ :=
    if total_weight ≤ r.first_weight then
      .ok (r.first_weight_fee + r.registration_fee)
    else if r.additional_weight = 0 then
      .error "ZeroDivisionError: float division by zero"
    else
      .ok (r.first_weight_fee +
        ((⌈(total_weight - r.first_weight) / r.additional_weight⌉ : ℤ) : ℚ) *
          r.additional_weight_price + r.registration_fee)
  match fee! with
  | .error e => .error e
  | .ok fee =>
    .ok (fee,
      { shipping_company := r.shipping_company.getD ""
        region := r.region
        estimated_delivery_time :=
          if 0 < r.min_delivery_days ∧ 0 < r.max_delivery_days then
            toString r.min_delivery_days ++ "-" ++ toString r.max_delivery_days ++ "天"
          else ""
        min_delivery_days := r.min_delivery_days
        max_delivery_days := r.max_delivery_days
        first_weight := r.first_weight
        first_weight_fee := r.first_weight_fee
        additional_weight := r.additional_weight
        additional_weight_price := r.additional_weight_price
        registration_fee := r.registration_fee
        actual_weight := total_weight })

/-! ## IOSS tax (src/calculator.py lines 181-216) -/

/-- The taxable base of `calculate_total_ioss_tax` (src/calculator.py
line 186): `sum(ioss_price * quantity for products with ioss_price > 0)`. -/
def total_ioss_price (products : List Product) : ℚ :=
  ((products.filter (fun p => decide (0 < p.ioss_price))).map
    (fun p => p.ioss_price * p.quantity)).sum

/-- `Calculator.calculate_total_ioss_tax` (src/calculator.py lines 181-216).
Returns `(0, none)` when the base is non-positive (before any rule lookup)
or when no rule exists for the destination; `none` stands for the empty
info dict. -/
def calculate_total_ioss_tax (products : List Product) (destination : String)
    (ioss_rules : List IossRule) : ℚ × Option IossInfo :=
  let tip := total_ioss_price products
  if tip ≤ 0 then (0, none)
  else
    match get_ioss_rule ioss_rules destination with
    | none => (0, none)
    | some rule =>
      let vat_tax := tip * rule.vat_rate
      let service_fee := tip * rule.service_rate
      let tot := vat_tax + service_fee
      (tot, some
        { vat_rate := rule.vat_rate
          service_rate := rule.service_rate
          vat_tax := vat_tax
          service_fee := service_fee
          total_ioss_tax := tot
          total_ioss_price := tip })

/-! ## Orchestrator (src/calculator.py lines 218-260) -/

/-- The lazy per-product fill of src/calculator.py lines 241-243: set
`total := price * quantity` only when `total ≤ 0` and `price > 0`. -/
def fill_total (p : Product) : Product :=
  if p.total ≤ 0 ∧ 0 < p.price then { p with total := p.price * p.quantity } else p

/-- The apportionment of src/calculator.py lines 253-256: each product gets
`fee / n` as shipping fee and `tax / n` as IOSS tax, added onto its total. -/
def apportion (n fee tax : ℚ) (p : Product) : Product :=
  { p with
    shipping_fee := fee / n
    ioss_tax := tax / n
    total := p.total + fee / n + tax / n }

/-- `Calculator.calculate_totals` (src/calculator.py lines 218-260).
`selected = none` models both `None` and the falsy empty dict of
`if not selected_shipping_rules`; a present dict without the
`shipping_company` key is `some r` with `r.shipping_company = none`.
Python's in-place mutation of the product list is modelled by the product
list carried inside the returned `CalculationResult`. -/
def calculate_totals (products : List Product) (destination : String)
    (ioss_rules : List IossRule) (selected : Option SelectedRule) :
    Except String (CalculationResult × Option RuleInfo × Option IossInfo) :=
  match products with
  | [] => .ok ({ products := [], total_amount := 0, ioss_taxes := 0 }, none, none)
  | _ :: _ =>
    match selected with
    | none => .error "请先选择运费规则"
    | some r =>
      match r.shipping_company with
      | none => .error "运费规则缺少必要字段: shipping_company"
      | some _ =>
        match calculate_shipping_fee products r with
        | .error e => .error e
        | .ok (total_shipping_fee, rule_info) =>
          let filled := products.map fill_total
          let total_product_price := (filled.map Product.total).sum
          let tax_info := calculate_total_ioss_tax filled destination ioss_rules
          let total_ioss_tax := tax_info.1
          let total_amount := total_product_price + total_ioss_tax + total_shipping_fee
          let n : ℚ := products.length
          let final := filled.map (apportion n total_shipping_fee total_ioss_tax)
          .ok ({ products := final, total_amount := total_amount, ioss_taxes := total_ioss_tax },
            some rule_info, tax_info.2)

/-! ## Order aggregation (src/calculator.py lines 262-386) -/

/-- Order-number keys in first-occurrence order (Python dicts preserve
insertion order). -/
def order_number_keys (orders : List Order) : List String :=
  orders.foldl (fun acc o => if acc.contains o.order_number then acc else acc ++ [o.order_number]) []

/-- `Calculator._group_orders_by_number` (src/calculator.py lines 262-267):
`defaultdict(list)` grouping by `order_number`, keys compared
case-sensitively with `==`. -/
def _group_orders_by_number (orders : List Order) : List (String × List Order) :=
  (order_number_keys orders).map (fun k => (k, orders.filter (fun o => o.order_number == k)))

/-- Dict lookup on a string-keyed map. -/
def lookupQ (m : List (String × ℚ)) (k : String) : Option ℚ :=
  (m.find? (fun kv => kv.1 == k)).map (fun kv => kv.2)

/-- The per-group price accumulation of src/calculator.py lines 307-319:
`uniform_cost_price * quantity` when that override is positive, else the
catalog price for the SKU, else no contribution (warn and skip). -/
def order_group_price (product_data : List (String × ℚ)) (group : List Order) : ℚ :=
  group.foldl (fun (acc : ℚ) o =>
    if (0 : ℚ) < o.uniform_cost_price then acc + o.uniform_cost_price * o.quantity
    else
      match lookupQ product_data o.sku with
      | some price => acc + price * o.quantity
      | none => acc) (0 : ℚ)

/-- `Calculator.calculate_order_totals` (src/calculator.py lines 269-336).
The base country is `orders[0].country` — the first order of the whole list,
not of each group — and the single IOSS lookup uses it for every group
(lines 282-295: 只获取一次IOSS规则).  A group's IOSS cost is
`round(total * (vat_rate + service_rate), 2)` when its total is positive and
the base-country rule exists, else `0`. -/
def calculate_order_totals (orders : List Order) (ioss_rules : List IossRule)
    (product_data : List (String × ℚ)) :
    List (String × ℚ) × List (String × ℚ) :=
  match orders with
  | [] => ([], [])
  | o0 :: _ =>
    let ioss_rule := get_ioss_rule ioss_rules o0.country
    let grouped := _group_orders_by_number orders
    let product_totals := grouped.map (fun g => (g.1, order_group_price product_data g.2))
    let ioss_totals := grouped.map (fun g =>
      let t := order_group_price product_data g.2
      (g.1,
        match ioss_rule with
        | some ru => if 0 < t then py_round_half_even (t * (ru.vat_rate + ru.service_rate)) 2 else 0
        | none => 0))
    (product_totals, ioss_totals)

/-- `Calculator.create_invoices` (src/calculator.py lines 338-386).  For
every group the loop body executes
`Invoice(country=..., order_number=..., product_cost=..., shipping_cost=...,
ioss_cost=ioss_cost, redelivery_cost=0.0)` — but the `Invoice` dataclass of
src/models.py (lines 61-69) declares no `ioss_cost` field, so the generated
`__init__` rejects the keyword and raises `TypeError` on the first group.
The values computed before that call (country, costs, the negative-shipping
clamp) have no observable effect.  Only an empty grouping avoids the loop
body and returns the empty invoice list. -/
def create_invoices (orders : List Order)
    (order_totals order_ioss_totals shipping_cost_map : List (String × ℚ)) :
    Except String (List Invoice) :=
  match _group_orders_by_number orders with
  | [] => .ok []
  | _ :: _ => .error "TypeError: __init__() got an unexpected keyword argument 'ioss_cost'"

/-! ## Helper lemmas -/

theorem fill_total_ioss_price (p : Product) : (fill_total p).ioss_price = p.ioss_price := by
  unfold fill_total; split <;> rfl

theorem fill_total_quantity (p : Product) : (fill_total p).quantity = p.quantity := by
  unfold fill_total; split <;> rfl

theorem total_ioss_price_cons (p : Product) (ps : List Product) :
    total_ioss_price (p :: ps) =
      (if 0 < p.ioss_price then p.ioss_price * p.quantity else 0) + total_ioss_price ps := by
  by_cases h : 0 < p.ioss_price <;> simp [total_ioss_price, List.filter_cons, h]

theorem total_ioss_price_fill (ps : List Product) :
    total_ioss_price (ps.map fill_total) = total_ioss_price ps := by
  induction ps with
  | nil => rfl
  | cons p tl ih =>
    rw [List.map_cons, total_ioss_price_cons, total_ioss_price_cons, ih,
      fill_total_ioss_price, fill_total_quantity]

theorem calculate_total_ioss_tax_fill (ps : List Product) (dest : String)
    (rules : List IossRule) :
    calculate_total_ioss_tax (ps.map fill_total) dest rules =
      calculate_total_ioss_tax ps dest rules := by
  unfold calculate_total_ioss_tax
  rw [total_ioss_price_fill]

/-! ## Concrete fixtures used by witnesses and counterexamples -/

/-- A plain product: one unit of 100 g, general cargo, no dimensions. -/
def base_product : Product :=
  { sku := "p", quantity := 1, weight := 100, attr := "普货", length := 0, width := 0,
    height := 0, price := 0, ioss_price := 0, image_url := "", shipping_fee := 0,
    total := 0, actual_weight := 0, volume_weight := 0, ioss_tax := 0 }

/-- A plain selected rule dict: first weight 1000 g at fee 10, increments of
500 g at 5, registration fee 2, no precomputed weight. -/
def base_selected_rule : SelectedRule :=
  { id := 0, shipping_company := some "X", country := "DE", attr := "普货", region := "",
    weight_min := 0, weight_max := 2000, first_weight := 1000, first_weight_fee := 10,
    additional_weight := 500, additional_weight_price := 5, min_delivery_days := 0,
    max_delivery_days := 0, registration_fee := 2, total_weight := none }

/-- The `ShippingRule` matching `base_selected_rule`. -/
def base_shipping_rule : ShippingRule :=
  { shipping_company := "X", attr := "普货", country := "DE", region := "",
    weight_min := 0, weight_max := 2000, first_weight := 1000, first_weight_fee := 10,
    additional_weight := 500, additional_weight_price := 5, min_delivery_days := 0,
    max_delivery_days := 0, registration_fee := 2 }

/-- The `rule_info` produced for `base_selected_rule` at weight `w`. -/
def base_rule_info (w : ℚ) : RuleInfo :=
  { shipping_company := "X", region := "", estimated_delivery_time := "",
    min_delivery_days := 0, max_delivery_days := 0, first_weight := 1000,
    first_weight_fee := 10, additional_weight := 500, additional_weight_price := 5,
    registration_fee := 2, actual_weight := w }

/-- An order line carrying only the fields the order aggregation reads. -/
def make_order (num country sku : String) (qty ucp : ℚ) : Order :=
  { order_number := num, order_status := "", order_note := "", payment_time := "",
    country_code := "", country := country, product_name := "", shop_name := "",
    sku := sku, combination_sku := "", quantity := qty, total_weight := 0,
    uniform_cost_price := ucp }

/-! ## Claim C1 -/

/-- Claim C1: the claim states that percent-string rate cells are divided by
100 at load time, so that the stored rates are decimal fractions.  The code
(src/ioss_fetcher.py lines 80-86) only strips the `%` sign: a `20%` VAT cell
and a `2%` service cell load as `20` and `2`, not `0.20` and `0.02`, and the
tax computed on a base of `100` is `2200` — 100 times the claimed
`100*0.20 + 100*0.02 = 22`.  This contradicts the source's own comment at
src/calculator.py line 199 (税率已在ioss_fetcher中转换为小数), so the claim is
right and the code is wrong (code_bug). -/
theorem ioss_rate_not_divided_by_100 :
    parse_ioss_row "Germany" "20%" "2%" =
      some { country := "Germany", vat_rate := 20, service_rate := 2 } ∧
    ¬ (parse_ioss_row "Germany" "20%" "2%").map IossRule.vat_rate = some (20 / 100) ∧
    (calculate_total_ioss_tax
      [{ base_product with ioss_price := 100 }] "Germany"
      (load_ioss_rules [("Germany", "20%", "2%")])).1 = 2200 ∧
    ¬ ((2200 : ℚ) = 100 * (20 / 100) + 100 * (2 / 100)) := by
  refine ⟨by decide, ?_, ?_, by norm_num⟩
  · have h : parse_ioss_row "Germany" "20%" "2%" =
        some { country := "Germany", vat_rate := 20, service_rate := 2 } := by decide
    rw [h]
    norm_num
  · have h : load_ioss_rules [("Germany", "20%", "2%")] =
        [{ country := "Germany", vat_rate := 20, service_rate := 2 }] := by decide
    rw [h]
    norm_num [calculate_total_ioss_tax, total_ioss_price, get_ioss_rule, base_product,
      List.filter, List.find?]

/-! ## Claim C10 -/

/-- The rule used by the C10 evidence: `additional_weight = 0` — the value
`safe_float` produces for a `'-'` cell — and a precomputed weight above the
first weight. -/
def c10_rule : SelectedRule :=
  { base_selected_rule with additional_weight := 0, total_weight := some 1500 }

/-- Claim C10: `calculate_shipping_fee` is total only when
`additional_weight > 0` wherever the weight exceeds the first weight: the
loader's `safe_float` turns blank or `'-'` cells into `0.0`, and with
`total_weight = 1500 > first_weight = 1000` and `additional_weight = 0` the
unguarded division at src/calculator.py line 152 raises `ZeroDivisionError`
instead of returning a fee.  Confirmed. -/
theorem shipping_fee_zero_additional_weight_divzero :
    safe_float (.str "-") = 0 ∧
    safe_float (.str "") = 0 ∧
    c10_rule.additional_weight = safe_float (.str "-") ∧
    c10_rule.total_weight = some 1500 ∧
    c10_rule.first_weight = 1000 ∧
    calculate_shipping_fee [] c10_rule = .error "ZeroDivisionError: float division by zero" := by
  refine ⟨by decide, by decide, by decide, rfl, rfl, ?_⟩
  norm_num [calculate_shipping_fee, c10_rule, base_selected_rule]

/-! ## Claim C6 -/

/-- Claim C6: with a non-empty product list, `calculate_totals` raises a
validation `ValueError` when no shipping rule is selected (`None` or the
falsy empty dict) and when the selected rule lacks the required
`shipping_company` key, before any product is touched and without producing a
`CalculationResult`; an empty product list instead returns a zero-value
result for any rule argument.  Confirmed. -/
theorem calculate_totals_validation (ps : List Product) (dest : String)
    (rules : List IossRule) (hne : ps ≠ []) :
    calculate_totals ps dest rules none = .error "请先选择运费规则" ∧
    (∀ r : SelectedRule, r.shipping_company = none →
      calculate_totals ps dest rules (some r) =
        .error "运费规则缺少必要字段: shipping_company") ∧
    (∀ sel, calculate_totals [] dest rules sel =
      .ok ({ products := [], total_amount := 0, ioss_taxes := 0 }, none, none)) := by
  obtain ⟨p, tl, rfl⟩ := List.exists_cons_of_ne_nil hne
  refine ⟨rfl, ?_, fun sel => rfl⟩
  intro r hr
  simp [calculate_totals, hr]

/-- Witness for C6 at a concrete input. -/
theorem calculate_totals_validation_witness :
    ([base_product] : List Product) ≠ [] ∧
    calculate_totals [base_product] "DE" [] none = .error "请先选择运费规则" :=
  ⟨by simp, (calculate_totals_validation [base_product] "DE" [] (by simp)).1⟩

/-! ## Claim C9 -/

/-- Claim C9: `create_invoices` is claimed to produce one `Invoice` per
distinct order number with `total_charges = product_cost + shipping_cost +
ioss_cost + redelivery_cost`.  The grouping step does merge two orders that
share an order number, but the `Invoice` dataclass of src/models.py
(lines 61-69) has no `ioss_cost` field while src/calculator.py line 377
passes `ioss_cost=...` to the constructor, so for every non-empty order list
the first group raises `TypeError` and no invoice is ever produced: the
claim describes the intent (spec §3 lists a tax cost on the invoice) and the
code contradicts its own usage (code_bug). -/
theorem create_invoices_ioss_cost_type_error :
    _group_orders_by_number [make_order "A" "DE" "s1" 1 10, make_order "A" "DE" "s2" 2 20] =
      [("A", [make_order "A" "DE" "s1" 1 10, make_order "A" "DE" "s2" 2 20])] ∧
    create_invoices [make_order "A" "DE" "s1" 1 10, make_order "A" "DE" "s2" 2 20]
        [("A", 50)] [("A", 5)] [("A", 7)] =
      .error "TypeError: __init__() got an unexpected keyword argument 'ioss_cost'" := by
  constructor
  · decide
  · have h : _group_orders_by_number
        [make_order "A" "DE" "s1" 1 10, make_order "A" "DE" "s2" 2 20] =
        [("A", [make_order "A" "DE" "s1" 1 10, make_order "A" "DE" "s2" 2 20])] := by decide
    rw [create_invoices, h]

/-! ## Claim C5 -/

theorem rule_matches_iff (dest chosen : String) (tw : ℚ) (r : ShippingRule) :
    rule_matches dest chosen tw r = true ↔
      (lower r.country = lower dest ∧ lower r.attr = lower chosen ∧
        r.weight_min < tw ∧ tw ≤ r.weight_max) := by
  simp [rule_matches, and_assoc]

theorem mem_enum_entries (tw : ℚ) (e : SelectedRule) :
    ∀ (l : List ShippingRule) (i : ℕ), e ∈ enum_entries tw i l →
      ∃ j r, r ∈ l ∧ e = mk_rule_entry j r tw := by
  intro l
  induction l with
  | nil => intro i h; simp [enum_entries] at h
  | cons a tl ih =>
    intro i h
    rcases List.mem_cons.mp h with h | h
    · exact ⟨i, a, List.mem_cons_self a tl, h⟩
    · obtain ⟨j, r, hr, he⟩ := ih (i + 1) h
      exact ⟨j, r, List.mem_cons_of_mem a hr, he⟩

theorem enum_entries_mem (tw : ℚ) (r : ShippingRule) :
    ∀ (l : List ShippingRule) (i : ℕ), r ∈ l →
      ∃ j, mk_rule_entry j r tw ∈ enum_entries tw i l := by
  intro l
  induction l with
  | nil => intro i h; simp at h
  | cons a tl ih =>
    intro i h
    rcases List.mem_cons.mp h with h | h
    · exact ⟨i, by rw [h]; exact List.mem_cons_self _ _⟩
    · obtain ⟨j, hj⟩ := ih (i + 1) h
      exact ⟨j, List.mem_cons_of_mem _ hj⟩

/-- Claim C5: `find_applicable_shipping_rules` returns exactly the rules
whose country and attribute match case-insensitively and whose weight band
satisfies `weight_min < shipment_weight ≤ weight_max` (open-low/closed-high);
every returned entry carries the computed shipment weight, and with no match
the result is the empty list rather than an exception.  Confirmed, under the
proviso `ratio ≠ 0` (a zero volumetric divisor would raise
`ZeroDivisionError` in the weight loop when a product has dimensions; the
caller supplies the divisor, default 6000). -/
theorem find_applicable_rules_filter_semantics (rules : List ShippingRule)
    (ps : List Product) (dest : String) (ratio : ℚ) (hratio : ratio ≠ 0) :
    ∃ rs, find_applicable_shipping_rules rules ps dest ratio = .ok rs ∧
      (∀ e ∈ rs, e.total_weight = some (shipment_weight ratio ps)) ∧
      (∀ e ∈ rs, ∃ i r, r ∈ rules ∧
        lower r.country = lower dest ∧
        lower r.attr = lower (chosen_attr ps) ∧
        r.weight_min < shipment_weight ratio ps ∧
        shipment_weight ratio ps ≤ r.weight_max ∧
        e = mk_rule_entry i r (shipment_weight ratio ps)) ∧
      (∀ r ∈ rules, lower r.country = lower dest →
        lower r.attr = lower (chosen_attr ps) →
        r.weight_min < shipment_weight ratio ps →
        shipment_weight ratio ps ≤ r.weight_max →
        ∃ i, mk_rule_entry i r (shipment_weight ratio ps) ∈ rs) ∧
      ((∀ r ∈ rules, ¬(lower r.country = lower dest ∧
          lower r.attr = lower (chosen_attr ps) ∧
          r.weight_min < shipment_weight ratio ps ∧
          shipment_weight ratio ps ≤ r.weight_max)) → rs = []) := by
  have hguard : ¬(ratio = 0 ∧ ps.any has_dims = true) := fun h => hratio h.1
  refine ⟨enum_entries (shipment_weight ratio ps) 0
    (rules.filter (rule_matches dest (chosen_attr ps) (shipment_weight ratio ps))),
    ?_, ?_, ?_, ?_, ?_⟩
  · rw [find_applicable_shipping_rules, if_neg hguard]
  · intro e he
    obtain ⟨j, r, _, rfl⟩ := mem_enum_entries _ e _ _ he
    rfl
  · intro e he
    obtain ⟨j, r, hr, rfl⟩ := mem_enum_entries _ e _ _ he
    obtain ⟨hmem, hmatch⟩ := List.mem_filter.mp hr
    obtain ⟨h1, h2, h3, h4⟩ := (rule_matches_iff _ _ _ _).mp hmatch
    exact ⟨j, r, hmem, h1, h2, h3, h4, rfl⟩
  · intro r hr h1 h2 h3 h4
    have hmatch : rule_matches dest (chosen_attr ps) (shipment_weight ratio ps) r = true :=
      (rule_matches_iff _ _ _ _).mpr ⟨h1, h2, h3, h4⟩
    exact enum_entries_mem _ r _ 0 (List.mem_filter.mpr ⟨hr, hmatch⟩)
  · intro hnone
    have hfil : rules.filter
        (rule_matches dest (chosen_attr ps) (shipment_weight ratio ps)) = [] := by
      rw [List.filter_eq_nil_iff]
      intro a ha hm
      exact hnone a ha ((rule_matches_iff _ _ _ _).mp hm)
    rw [hfil]
    rfl

/-- Witness for C5: one matching rule at a concrete input. -/
theorem find_applicable_rules_filter_semantics_witness :
    ((6000 : ℚ) ≠ 0) ∧
    (∃ rs, find_applicable_shipping_rules [base_shipping_rule] [base_product] "DE" 6000 = .ok rs ∧
      (∀ e ∈ rs, e.total_weight = some (shipment_weight 6000 [base_product])) ∧
      (∀ e ∈ rs, ∃ i r, r ∈ [base_shipping_rule] ∧
        lower r.country = lower "DE" ∧
        lower r.attr = lower (chosen_attr [base_product]) ∧
        r.weight_min < shipment_weight 6000 [base_product] ∧
        shipment_weight 6000 [base_product] ≤ r.weight_max ∧
        e = mk_rule_entry i r (shipment_weight 6000 [base_product])) ∧
      (∀ r ∈ [base_shipping_rule], lower r.country = lower "DE" →
        lower r.attr = lower (chosen_attr [base_product]) →
        r.weight_min < shipment_weight 6000 [base_product] →
        shipment_weight 6000 [base_product] ≤ r.weight_max →
        ∃ i, mk_rule_entry i r (shipment_weight 6000 [base_product]) ∈ rs) ∧
      ((∀ r ∈ [base_shipping_rule], ¬(lower r.country = lower "DE" ∧
          lower r.attr = lower (chosen_attr [base_product]) ∧
          r.weight_min < shipment_weight 6000 [base_product] ∧
          shipment_weight 6000 [base_product] ≤ r.weight_max)) → rs = [])) :=
  ⟨by norm_num,
    find_applicable_rules_filter_semantics [base_shipping_rule] [base_product] "DE" 6000
      (by norm_num)⟩

/-! ## Claim C3 -/

/-- The fee produced by `calculate_shipping_fee` at a supplied weight `w`,
as a function of the branch taken (helper for the C3 proof). -/
theorem calculate_shipping_fee_at_weight (ps : List Product) (r : SelectedRule)
    (haw : 0 < r.additional_weight) (w f : ℚ)
    (hf : (calculate_shipping_fee ps { r with total_weight := some w }).map Prod.fst = .ok f) :
    f = if w ≤ r.first_weight then r.first_weight_fee + r.registration_fee
        else r.first_weight_fee +
          ((⌈(w - r.first_weight) / r.additional_weight⌉ : ℤ) : ℚ) *
            r.additional_weight_price + r.registration_fee := by
  by_cases hw : w ≤ r.first_weight <;>
    simp [calculate_shipping_fee, Except.map, hw, ne_of_gt haw] at hf <;>
    simp [hw, hf.symm]

/-- Claim C3: with a positive increment size and a non-negative increment
price, the tiered fee is `first_weight_fee + registration_fee` for
`weight ≤ first_weight` (boundary inclusive on the lower tier), and
`first_weight_fee + ceil((weight - first_weight)/additional_weight) *
additional_weight_price + registration_fee` above it; any excess of at most
one increment — however tiny — is charged as exactly one full increment; and
the fee is monotonically non-decreasing in the weight.  Confirmed (the
positivity provisos exclude the degenerate `additional_weight = 0` rules
settled separately by C10). -/
theorem tiered_fee_formula_and_monotone (ps : List Product) (r : SelectedRule)
    (haw : 0 < r.additional_weight) (hap : 0 ≤ r.additional_weight_price) :
    (∀ w, w ≤ r.first_weight →
      (calculate_shipping_fee ps { r with total_weight := some w }).map Prod.fst =
        .ok (r.first_weight_fee + r.registration_fee)) ∧
    (∀ w, r.first_weight < w →
      (calculate_shipping_fee ps { r with total_weight := some w }).map Prod.fst =
        .ok (r.first_weight_fee +
          ((⌈(w - r.first_weight) / r.additional_weight⌉ : ℤ) : ℚ) *
            r.additional_weight_price + r.registration_fee)) ∧
    (∀ w, r.first_weight < w → w ≤ r.first_weight + r.additional_weight →
      (calculate_shipping_fee ps { r with total_weight := some w }).map Prod.fst =
        .ok (r.first_weight_fee + r.additional_weight_price + r.registration_fee)) ∧
    (∀ w1 w2 f1 f2, w1 ≤ w2 →
      (calculate_shipping_fee ps { r with total_weight := some w1 }).map Prod.fst = .ok f1 →
      (calculate_shipping_fee ps { r with total_weight := some w2 }).map Prod.fst = .ok f2 →
      f1 ≤ f2) := by
  refine ⟨?_, ?_, ?_, ?_⟩
  · intro w hw
    simp [calculate_shipping_fee, Except.map, hw]
  · intro w hw
    simp [calculate_shipping_fee, Except.map, not_le.mpr hw, ne_of_gt haw]
  · intro w hw1 hw2
    have hc : (⌈(w - r.first_weight) / r.additional_weight⌉ : ℤ) = 1 := by
      rw [Int.ceil_eq_iff]
      constructor
      · push_cast
        have : (0 : ℚ) < (w - r.first_weight) / r.additional_weight :=
          div_pos (by linarith) haw
        linarith
      · push_cast
        rw [div_le_one haw]
        linarith
    simp [calculate_shipping_fee, Except.map, not_le.mpr hw1, ne_of_gt haw, hc]
  · intro w1 w2 f1 f2 h12 hf1 hf2
    rw [calculate_shipping_fee_at_weight ps r haw w1 f1 hf1,
      calculate_shipping_fee_at_weight ps r haw w2 f2 hf2]
    by_cases hc1 : w1 ≤ r.first_weight
    · by_cases hc2 : w2 ≤ r.first_weight
      · simp [hc1, hc2]
      · have hw2 : r.first_weight < w2 := not_le.mp hc2
        have hpos : (0 : ℚ) < (w2 - r.first_weight) / r.additional_weight :=
          div_pos (by linarith) haw
        have hz : (0 : ℤ) < ⌈(w2 - r.first_weight) / r.additional_weight⌉ :=
          Int.ceil_pos.mpr hpos
        have hq : (1 : ℚ) ≤ ((⌈(w2 - r.first_weight) / r.additional_weight⌉ : ℤ) : ℚ) := by
          exact_mod_cast hz
        have hmul : 0 ≤ ((⌈(w2 - r.first_weight) / r.additional_weight⌉ : ℤ) : ℚ) *
            r.additional_weight_price := mul_nonneg (by linarith) hap
        simp [hc1, hc2]
        linarith
    · have hc2 : ¬ w2 ≤ r.first_weight := fun h => hc1 (le_trans h12 h)
      have hdiv : (w1 - r.first_weight) / r.additional_weight ≤
          (w2 - r.first_weight) / r.additional_weight :=
        (div_le_div_right haw).mpr (by linarith)
      have hceil : (⌈(w1 - r.first_weight) / r.additional_weight⌉ : ℤ) ≤
          ⌈(w2 - r.first_weight) / r.additional_weight⌉ := Int.ceil_mono hdiv
      have hle : ((⌈(w1 - r.first_weight) / r.additional_weight⌉ : ℤ) : ℚ) *
          r.additional_weight_price ≤
          ((⌈(w2 - r.first_weight) / r.additional_weight⌉ : ℤ) : ℚ) *
            r.additional_weight_price :=
        mul_le_mul_of_nonneg_right (by exact_mod_cast hceil) hap
      simp [hc1, hc2]
      linarith

/-- Witness for C3 at the `base_selected_rule` tariff. -/
theorem tiered_fee_formula_and_monotone_witness :
    ((0 : ℚ) < base_selected_rule.additional_weight ∧
      (0 : ℚ) ≤ base_selected_rule.additional_weight_price) ∧
    ((∀ w, w ≤ base_selected_rule.first_weight →
      (calculate_shipping_fee [] { base_selected_rule with total_weight := some w }).map
          Prod.fst =
        .ok (base_selected_rule.first_weight_fee + base_selected_rule.registration_fee)) ∧
    (∀ w, base_selected_rule.first_weight < w →
      (calculate_shipping_fee [] { base_selected_rule with total_weight := some w }).map
          Prod.fst =
        .ok (base_selected_rule.first_weight_fee +
          ((⌈(w - base_selected_rule.first_weight) / base_selected_rule.additional_weight⌉ :
              ℤ) : ℚ) * base_selected_rule.additional_weight_price +
          base_selected_rule.registration_fee)) ∧
    (∀ w, base_selected_rule.first_weight < w →
      w ≤ base_selected_rule.first_weight + base_selected_rule.additional_weight →
      (calculate_shipping_fee [] { base_selected_rule with total_weight := some w }).map
          Prod.fst =
        .ok (base_selected_rule.first_weight_fee +
          base_selected_rule.additional_weight_price +
          base_selected_rule.registration_fee)) ∧
    (∀ w1 w2 f1 f2, w1 ≤ w2 →
      (calculate_shipping_fee [] { base_selected_rule with total_weight := some w1 }).map
          Prod.fst = .ok f1 →
      (calculate_shipping_fee [] { base_selected_rule with total_weight := some w2 }).map
          Prod.fst = .ok f2 →
      f1 ≤ f2)) :=
  ⟨⟨by norm_num [base_selected_rule], by norm_num [base_selected_rule]⟩,
    tiered_fee_formula_and_monotone [] base_selected_rule
      (by norm_num [base_selected_rule]) (by norm_num [base_selected_rule])⟩

/-! ## Claim C7 -/

/-- Claim C7: with a positive total IOSS base and no `IossRule` for the
destination, the tax is `0` and `calculate_totals` still completes with a
full `CalculationResult` (no exception); and whenever the base
`Σ ioss_price*quantity` over positive-priced items is non-positive, the zero
tax is returned without any rule lookup — the result does not depend on the
rule table at all.  Confirmed (the shipping-fee hypothesis keeps the
orchestrator's earlier shipping step from failing for unrelated reasons). -/
theorem missing_ioss_rule_zero_tax (ps : List Product) (dest : String)
    (rules : List IossRule) (r : SelectedRule) (fee : ℚ) (rinfo : RuleInfo)
    (hbase : 0 < total_ioss_price ps)
    (hmiss : get_ioss_rule rules dest = none)
    (hsc : r.shipping_company.isSome = true)
    (hfee : calculate_shipping_fee ps r = .ok (fee, rinfo)) :
    calculate_total_ioss_tax ps dest rules = (0, none) ∧
    (∃ res ri ii, calculate_totals ps dest rules (some r) = .ok (res, ri, ii) ∧
      res.ioss_taxes = 0) ∧
    (∀ qs d rules1 rules2, total_ioss_price qs ≤ 0 →
      calculate_total_ioss_tax qs d rules1 = (0, none) ∧
      calculate_total_ioss_tax qs d rules1 = calculate_total_ioss_tax qs d rules2) := by
  have h1 : calculate_total_ioss_tax ps dest rules = (0, none) := by
    simp [calculate_total_ioss_tax, hmiss]
  refine ⟨h1, ?_, ?_⟩
  · have hne : ps ≠ [] := by
      rintro rfl
      simp [total_ioss_price] at hbase
    obtain ⟨p, tl, rfl⟩ := List.exists_cons_of_ne_nil hne
    obtain ⟨c, hc⟩ := Option.isSome_iff_exists.mp hsc
    have htax : calculate_total_ioss_tax ((p :: tl).map fill_total) dest rules = (0, none) := by
      rw [calculate_total_ioss_tax_fill]
      exact h1
    simp only [calculate_totals, hc, hfee, htax]
    exact ⟨_, _, _, rfl, rfl⟩
  · intro qs d rules1 rules2 hle
    constructor <;> simp [calculate_total_ioss_tax, hle]

/-- Witness for C7 at a concrete input: taxable base 100, destination with
no IOSS rule. -/
theorem missing_ioss_rule_zero_tax_witness :
    ((0 : ℚ) < total_ioss_price [{ base_product with ioss_price := 100 }] ∧
      get_ioss_rule [] "NL" = none ∧
      base_selected_rule.shipping_company.isSome = true ∧
      calculate_shipping_fee [{ base_product with ioss_price := 100 }] base_selected_rule =
        .ok (12, base_rule_info 100)) ∧
    (calculate_total_ioss_tax [{ base_product with ioss_price := 100 }] "NL" [] = (0, none) ∧
    (∃ res ri ii, calculate_totals [{ base_product with ioss_price := 100 }] "NL" []
        (some base_selected_rule) = .ok (res, ri, ii) ∧ res.ioss_taxes = 0) ∧
    (∀ qs d rules1 rules2, total_ioss_price qs ≤ 0 →
      calculate_total_ioss_tax qs d rules1 = (0, none) ∧
      calculate_total_ioss_tax qs d rules1 = calculate_total_ioss_tax qs d rules2)) :=
  ⟨⟨by norm_num [total_ioss_price, base_product, List.filter], rfl,
      by norm_num [base_selected_rule],
      by norm_num [calculate_shipping_fee, base_selected_rule, base_product,
        base_rule_info]⟩,
    missing_ioss_rule_zero_tax [{ base_product with ioss_price := 100 }] "NL" []
      base_selected_rule 12 (base_rule_info 100)
      (by norm_num [total_ioss_price, base_product, List.filter]) rfl
      (by norm_num [base_selected_rule])
      (by norm_num [calculate_shipping_fee, base_selected_rule, base_product,
        base_rule_info])⟩

/-! ## Claim C2 -/

theorem fill_total_total (p : Product) (h0 : p.total = 0) (hp : 0 ≤ p.price) :
    (fill_total p).total = p.price * p.quantity := by
  unfold fill_total
  by_cases hpp : 0 < p.price
  · rw [if_pos ⟨le_of_eq h0, hpp⟩]
  · rw [if_neg (fun hcon => hpp hcon.2)]
    have hz : p.price = 0 := le_antisymm (not_lt.mp hpp) hp
    rw [h0, hz, zero_mul]

theorem sum_fill_totals (ps : List Product)
    (h0 : ∀ p ∈ ps, p.total = 0) (hp : ∀ p ∈ ps, 0 ≤ p.price) :
    ((ps.map fill_total).map Product.total).sum =
      (ps.map (fun p => p.price * p.quantity)).sum := by
  induction ps with
  | nil => rfl
  | cons a tl ih =>
    simp only [List.map_cons, List.sum_cons]
    rw [fill_total_total a (h0 a (List.mem_cons_self _ _)) (hp a (List.mem_cons_self _ _)),
      ih (fun p h => h0 p (List.mem_cons_of_mem _ h))
        (fun p h => hp p (List.mem_cons_of_mem _ h))]

theorem sum_apportion_totals (l : List Product) (n fee tax : ℚ) :
    ((l.map (apportion n fee tax)).map Product.total).sum =
      (l.map Product.total).sum + l.length * (fee / n + tax / n) := by
  induction l with
  | nil => simp
  | cons a tl ih =>
    simp only [List.map_cons, List.sum_cons, List.length_cons, ih, apportion]
    push_cast
    ring

/-- Claim C2 (amended): the claim holds for product lists whose items start
with `total = 0` AND have non-negative prices.  (As frozen it fails: an item
with a negative price is skipped by the lazy fill `total ≤ 0 and price > 0`,
so its `price*quantity` never enters `total_amount` — see the
counterexample.)  Under the amendment: each of the N items carries
`shipping_fee = total_shipping_fee/N` and `ioss_tax = total_ioss_tax/N`, and
`total_amount` equals both `Σ(price*qty) + total_shipping_fee +
total_ioss_tax` and `Σ(item.total)` — exactly, in the exact-rational model,
hence within the claimed 1e-6 tolerance. -/
theorem calculate_totals_reconciles (ps : List Product) (dest : String)
    (rules : List IossRule) (r : SelectedRule) (fee : ℚ) (rinfo : RuleInfo)
    (res : CalculationResult) (ri : Option RuleInfo) (ii : Option IossInfo)
    (hne : ps ≠ [])
    (h0 : ∀ p ∈ ps, p.total = 0)
    (hp : ∀ p ∈ ps, 0 ≤ p.price)
    (hfee : calculate_shipping_fee ps r = .ok (fee, rinfo))
    (hok : calculate_totals ps dest rules (some r) = .ok (res, ri, ii)) :
    (∀ q ∈ res.products,
      q.shipping_fee = fee / ps.length ∧
      q.ioss_tax = (calculate_total_ioss_tax ps dest rules).1 / ps.length) ∧
    res.total_amount = (ps.map (fun p => p.price * p.quantity)).sum + fee +
      (calculate_total_ioss_tax ps dest rules).1 ∧
    res.total_amount = (res.products.map Product.total).sum := by
  obtain ⟨p, tl, rfl⟩ := List.exists_cons_of_ne_nil hne
  cases hsc : r.shipping_company with
  | none => simp [calculate_totals, hsc] at hok
  | some c =>
    simp only [calculate_totals, hsc, hfee, calculate_total_ioss_tax_fill] at hok
    rw [Except.ok.injEq, Prod.mk.injEq] at hok
    obtain ⟨hres, -⟩ := hok
    subst hres
    have hn : ((p :: tl).length : ℚ) ≠ 0 := by
      simp [List.length_cons]
      positivity
    refine ⟨?_, ?_, ?_⟩
    · intro q hq
      simp only [List.mem_map] at hq
      obtain ⟨x, -, rfl⟩ := hq
      exact ⟨rfl, rfl⟩
    · simp only []
      rw [sum_fill_totals _ h0 hp]
      ring
    · simp only []
      rw [sum_apportion_totals, List.length_map]
      rw [mul_add, mul_div_cancel₀ _ hn, mul_div_cancel₀ _ hn]
      ring

/-- Counterexample for C2 as frozen: a single item with `total = 0` but
`price = -1` — `calculate_totals` succeeds with `total_amount = 12` while
`Σ(price*qty) + total_shipping_fee + total_ioss_tax = -1 + 12 + 0 = 11`. -/
theorem calculate_totals_reconcile_cex :
    (calculate_totals [{ base_product with price := -1 }] "XX" []
        (some base_selected_rule)).toOption.map (fun t => t.1.total_amount) = some 12 ∧
    (calculate_shipping_fee [{ base_product with price := -1 }]
        base_selected_rule).toOption.map Prod.fst = some 12 ∧
    (calculate_total_ioss_tax [{ base_product with price := -1 }] "XX" []).1 = 0 ∧
    ¬ ((12 : ℚ) = ([{ base_product with price := -1 }].map
        (fun p => p.price * p.quantity)).sum + 12 + 0) := by
  refine ⟨?_, ?_, ?_, ?_⟩
  · norm_num [calculate_totals, calculate_shipping_fee, calculate_total_ioss_tax,
      total_ioss_price, get_ioss_rule, fill_total, apportion, base_product,
      base_selected_rule, List.filter, Except.toOption]
  · norm_num [calculate_shipping_fee, base_product, base_selected_rule, Except.toOption]
  · norm_num [calculate_total_ioss_tax, total_ioss_price, get_ioss_rule, base_product,
      List.filter]
  · norm_num [base_product]

/-- The product record produced by the C2 witness run. -/
def c2w_product : Product := { base_product with shipping_fee := 12, ioss_tax := 0, total := 12 }

/-- The calculation result produced by the C2 witness run. -/
def c2w_result : CalculationResult := { products := [c2w_product], total_amount := 12, ioss_taxes := 0 }

/-- Witness for the amended C2 at a concrete input. -/
theorem calculate_totals_reconciles_witness :
    (([base_product] : List Product) ≠ [] ∧
      (∀ p ∈ ([base_product] : List Product), p.total = 0) ∧
      (∀ p ∈ ([base_product] : List Product), 0 ≤ p.price) ∧
      calculate_shipping_fee [base_product] base_selected_rule =
        .ok (12, base_rule_info 100) ∧
      calculate_totals [base_product] "XX" [] (some base_selected_rule) =
        .ok (c2w_result, some (base_rule_info 100), none)) ∧
    ((∀ q ∈ c2w_result.products,
      q.shipping_fee = 12 / ([base_product] : List Product).length ∧
      q.ioss_tax = (calculate_total_ioss_tax [base_product] "XX" []).1 /
        ([base_product] : List Product).length) ∧
    c2w_result.total_amount = ([base_product].map (fun p => p.price * p.quantity)).sum +
      12 + (calculate_total_ioss_tax [base_product] "XX" []).1 ∧
    c2w_result.total_amount = (c2w_result.products.map Product.total).sum) :=
  ⟨⟨by simp, by simp [base_product], by simp [base_product],
      by norm_num [calculate_shipping_fee, base_product, base_selected_rule, base_rule_info],
      by norm_num [calculate_totals, calculate_shipping_fee, calculate_total_ioss_tax,
        total_ioss_price, get_ioss_rule, fill_total, apportion, base_product,
        base_selected_rule, base_rule_info, c2w_result, c2w_product, List.filter]⟩,
    calculate_totals_reconciles [base_product] "XX" [] base_selected_rule 12
      (base_rule_info 100) c2w_result (some (base_rule_info 100)) none
      (by simp) (by simp [base_product]) (by simp [base_product])
      (by norm_num [calculate_shipping_fee, base_product, base_selected_rule, base_rule_info])
      (by norm_num [calculate_totals, calculate_shipping_fee, calculate_total_ioss_tax,
        total_ioss_price, get_ioss_rule, fill_total, apportion, base_product,
        base_selected_rule, base_rule_info, c2w_result, c2w_product, List.filter])⟩

/-! ## Claim C4 -/

theorem product_chargeable_weight_eq (ratio : ℚ) (p : Product)
    (h : has_dims p = false ∨
      p.length * p.width * p.height / ratio * p.quantity ≤ p.quantity * p.weight) :
    product_chargeable_weight ratio p = p.quantity * p.weight := by
  unfold product_chargeable_weight
  rcases h with h | h
  · simp [h]
  · by_cases hd : has_dims p
    · simp [hd, max_eq_left h]
    · simp [hd]

theorem shipment_weight_eq_actual_sum (ratio : ℚ) (ps : List Product)
    (hch : ∀ p ∈ ps, has_dims p = false ∨
      p.length * p.width * p.height / ratio * p.quantity ≤ p.quantity * p.weight) :
    shipment_weight ratio ps = (ps.map (fun p => p.quantity * p.weight)).sum := by
  induction ps with
  | nil => rfl
  | cons a tl ih =>
    simp only [shipment_weight, List.map_cons, List.sum_cons] at ih ⊢
    rw [ih (fun p h => hch p (List.mem_cons_of_mem _ h)),
      product_chargeable_weight_eq ratio a (hch a (List.mem_cons_self _ _))]

/-- Claim C4 (amended): reusing the `total_weight` computed by
`find_applicable_shipping_rules` and letting `calculate_shipping_fee`
re-derive the weight give the same fee PROVIDED every product's chargeable
weight is its actual weight (no product with all dimensions nonzero whose
volumetric weight exceeds `quantity*weight` — in particular whenever no
product has dimensions).  As frozen the claim fails: the re-derivation at
src/calculator.py line 130 is the plain sum `Σ quantity*weight` with no
volumetric comparison, while `find_applicable_shipping_rules` sums
`max(actual, volumetric)` — see the counterexample. -/
theorem shipping_fee_weight_reuse (rules : List ShippingRule) (ps : List Product)
    (dest : String) (ratio : ℚ) (rs : List SelectedRule) (e : SelectedRule)
    (hch : ∀ p ∈ ps, has_dims p = false ∨
      p.length * p.width * p.height / ratio * p.quantity ≤ p.quantity * p.weight)
    (hfind : find_applicable_shipping_rules rules ps dest ratio = .ok rs)
    (he : e ∈ rs) :
    calculate_shipping_fee ps e =
      calculate_shipping_fee ps { e with total_weight := none } := by
  by_cases hg : ratio = 0 ∧ ps.any has_dims = true
  · rw [find_applicable_shipping_rules, if_pos hg] at hfind
    exact absurd hfind (by simp)
  · rw [find_applicable_shipping_rules, if_neg hg, Except.ok.injEq] at hfind
    subst hfind
    obtain ⟨j, rl, -, rfl⟩ := mem_enum_entries _ e _ _ he
    have hw := shipment_weight_eq_actual_sum ratio ps hch
    simp [calculate_shipping_fee, mk_rule_entry, hw]

/-- Counterexample for C4 as frozen: a 100 g product measuring 10x10x10 cm
with divisor 1 has volumetric weight 1000 g; `find_applicable_shipping_rules`
computes `total_weight = 1000` (above the 500 g first weight — fee 17), while
omitting the precomputed weight makes `calculate_shipping_fee` re-derive
`Σ quantity*weight = 100` (below the first weight — fee 12). -/
theorem shipping_fee_weight_reuse_cex :
    find_applicable_shipping_rules [{ base_shipping_rule with first_weight := 500 }]
        [{ base_product with length := 10, width := 10, height := 10 }] "DE" 1 =
      .ok [mk_rule_entry 0 { base_shipping_rule with first_weight := 500 } 1000] ∧
    (calculate_shipping_fee [{ base_product with length := 10, width := 10, height := 10 }]
        (mk_rule_entry 0 { base_shipping_rule with first_weight := 500 } 1000)).toOption.map
        Prod.fst = some 17 ∧
    (calculate_shipping_fee [{ base_product with length := 10, width := 10, height := 10 }]
        { mk_rule_entry 0 { base_shipping_rule with first_weight := 500 } 1000 with
          total_weight := none }).toOption.map Prod.fst = some 12 ∧
    ¬ ((17 : ℚ) = 12) := by
  refine ⟨?_, ?_, ?_, by norm_num⟩
  · norm_num [find_applicable_shipping_rules, shipment_weight, product_chargeable_weight,
      has_dims, chosen_attr, attribute_priority, rule_matches, lower, enum_entries,
      List.filter, List.find?, List.any, base_product, base_shipping_rule]
  · norm_num [calculate_shipping_fee, mk_rule_entry, py_round_half_even, Int.floor_eq_iff,
      Int.ceil_eq_iff, base_product, base_shipping_rule, Except.toOption]
  · norm_num [calculate_shipping_fee, mk_rule_entry, py_round_half_even, Int.floor_eq_iff,
      base_product, base_shipping_rule, Except.toOption]

/-- Witness for the amended C4 at a concrete input without dimensions. -/
theorem shipping_fee_weight_reuse_witness :
    ((∀ p ∈ ([base_product] : List Product), has_dims p = false ∨
        p.length * p.width * p.height / 6000 * p.quantity ≤ p.quantity * p.weight) ∧
      find_applicable_shipping_rules [base_shipping_rule] [base_product] "DE" 6000 =
        .ok [mk_rule_entry 0 base_shipping_rule 100] ∧
      mk_rule_entry 0 base_shipping_rule 100 ∈ [mk_rule_entry 0 base_shipping_rule 100]) ∧
    calculate_shipping_fee [base_product] (mk_rule_entry 0 base_shipping_rule 100) =
      calculate_shipping_fee [base_product]
        { mk_rule_entry 0 base_shipping_rule 100 with total_weight := none } :=
  ⟨⟨by intro p hp; rcases List.mem_singleton.mp hp with rfl; left; decide,
      by norm_num [find_applicable_shipping_rules, shipment_weight, product_chargeable_weight,
        has_dims, chosen_attr, attribute_priority, rule_matches, lower, enum_entries,
        List.filter, List.find?, List.any, base_product, base_shipping_rule],
      List.mem_singleton.mpr rfl⟩,
    shipping_fee_weight_reuse [base_shipping_rule] [base_product] "DE" 6000
      [mk_rule_entry 0 base_shipping_rule 100] (mk_rule_entry 0 base_shipping_rule 100)
      (by intro p hp; rcases List.mem_singleton.mp hp with rfl; left; decide)
      (by norm_num [find_applicable_shipping_rules, shipment_weight, product_chargeable_weight,
        has_dims, chosen_attr, attribute_priority, rule_matches, lower, enum_entries,
        List.filter, List.find?, List.any, base_product, base_shipping_rule])
      (List.mem_singleton.mpr rfl)⟩

/-! ## Claim C8 -/

theorem lookupQ_map_groups (gs : List (String × List Order)) (F : List Order → ℚ)
    (num : String) :
    lookupQ (gs.map (fun g => (g.1, F g.2))) num =
      (gs.find? (fun g => g.1 == num)).map (fun g => F g.2) := by
  induction gs with
  | nil => rfl
  | cons a tl ih =>
    cases h : (a.1 == num) with
    | true => simp [lookupQ, List.find?_cons, h]
    | false => simpa [lookupQ, List.find?_cons, h] using ih

/-- Claim C8 (amended): `calculate_order_totals` computes every group's
tax on imports from the rule of the FIRST ORDER's country (`orders[0].country`,
src/calculator.py line 283), with exactly one IossRule lookup for the whole
call — the result depends on the rule table only through that single
base-country lookup, and a group whose own lines have a different country
still gets the base country's rate.  (As frozen the claim fails: it asserts
each group uses its own first line's country and one lookup per distinct
country — see the counterexample, where the "B"/France group is taxed at the
German rate.) -/
theorem order_totals_base_country (o0 : Order) (rest : List Order)
    (rules : List IossRule) (pd : List (String × ℚ)) (ru : IossRule)
    (hr : get_ioss_rule rules o0.country = some ru) :
    (∀ rules2, get_ioss_rule rules2 o0.country = some ru →
      calculate_order_totals (o0 :: rest) rules2 pd =
        calculate_order_totals (o0 :: rest) rules pd) ∧
    (∀ num t, lookupQ (calculate_order_totals (o0 :: rest) rules pd).1 num = some t →
      0 < t →
      lookupQ (calculate_order_totals (o0 :: rest) rules pd).2 num =
        some (py_round_half_even (t * (ru.vat_rate + ru.service_rate)) 2)) := by
  constructor
  · intro rules2 h2
    simp only [calculate_order_totals, h2, hr]
  · intro num t ht hpos
    simp only [calculate_order_totals, hr] at ht ⊢
    rw [lookupQ_map_groups] at ht
    rw [lookupQ_map_groups (_group_orders_by_number (o0 :: rest))
      (fun grp => if 0 < order_group_price pd grp then
        py_round_half_even (order_group_price pd grp * (ru.vat_rate + ru.service_rate)) 2
      else 0) num]
    obtain ⟨g, hfind, hF⟩ := Option.map_eq_some'.mp ht
    rw [hfind, Option.map_some']
    rw [hF, if_pos hpos]

/-- The two-country order fixture for C8: two singleton groups, the first
order from Germany (VAT 20 percent), the second from France (VAT 10
percent). -/
def c8_orders : List Order :=
  [make_order "A" "DE" "s1" 1 100, make_order "B" "FR" "s2" 1 100]

/-- IOSS rules for C8: Germany 20 percent, France 10 percent (as decimal
fractions, service rate zero). -/
def c8_rules : List IossRule :=
  [{ country := "DE", vat_rate := 1/5, service_rate := 0 },
   { country := "FR", vat_rate := 1/10, service_rate := 0 }]

/-- Counterexample for C8 as frozen: the "B" group's only line is French,
yet its IOSS cost is `round(100 * 0.2, 2) = 20` — the German (base-country)
rate — not the French `round(100 * 0.1, 2) = 10`. -/
theorem order_totals_base_country_cex :
    lookupQ (calculate_order_totals c8_orders c8_rules []).2 "B" = some 20 ∧
    ¬ (lookupQ (calculate_order_totals c8_orders c8_rules []).2 "B" =
        some (py_round_half_even (100 * ((1:ℚ)/10 + 0)) 2)) := by
  have h : lookupQ (calculate_order_totals c8_orders c8_rules []).2 "B" = some 20 := by
    norm_num [calculate_order_totals, _group_orders_by_number, order_number_keys,
      order_group_price, get_ioss_rule, lookupQ, py_round_half_even, Int.floor_eq_iff,
      lower, List.find?, List.filter, make_order, c8_orders, c8_rules, List.foldl]
    simp
  refine ⟨h, ?_⟩
  rw [h]
  norm_num [py_round_half_even, Int.floor_eq_iff]

/-- Witness for the amended C8 at the two-country fixture. -/
theorem order_totals_base_country_witness :
    (get_ioss_rule c8_rules (make_order "A" "DE" "s1" 1 100).country =
        some { country := "DE", vat_rate := 1/5, service_rate := 0 } ∧
      lookupQ (calculate_order_totals c8_orders c8_rules []).1 "B" = some 100 ∧
      (0 : ℚ) < 100) ∧
    lookupQ (calculate_order_totals c8_orders c8_rules []).2 "B" =
      some (py_round_half_even
        (100 * (IossRule.vat_rate { country := "DE", vat_rate := 1/5, service_rate := 0 } +
          IossRule.service_rate { country := "DE", vat_rate := 1/5, service_rate := 0 })) 2) :=
  ⟨⟨rfl,
      by norm_num [calculate_order_totals, _group_orders_by_number, order_number_keys,
        order_group_price, get_ioss_rule, lookupQ, lower, List.find?, List.filter,
        make_order, c8_orders, c8_rules, List.foldl]; simp,
      by norm_num⟩,
    (order_totals_base_country (make_order "A" "DE" "s1" 1 100)
        [make_order "B" "FR" "s2" 1 100] c8_rules []
        { country := "DE", vat_rate := 1/5, service_rate := 0 } rfl).2 "B" 100
      (by norm_num [calculate_order_totals, _group_orders_by_number, order_number_keys,
        order_group_price, get_ioss_rule, lookupQ, lower, List.find?, List.filter,
        make_order, c8_orders, c8_rules, List.foldl]; simp)
      (by norm_num)⟩

end InquiryTool
